import Mathlib

/-!
Verification development for the Pharmacy discrete-event simulation
(pharmacy_sim.py together with distributions.py).  The definitions below are a
shallow embedding of the program: module-level constants, the sampling setup of
Experiment.init_sampling, the simpy container semantics the program relies on,
the per-process step logic (customer, generate_customers, restock_check,
warmup) and the metric computation of run.  Times, rates and stock levels are
modelled as rationals; random draws enter as explicit parameters.
-/

namespace PharmacySim

/-! Module-level simulation constants (pharmacy_sim.py lines 15-48). -/

def SEED : Int := 42

def N_RNG_STREAMS : Nat := 5

def ARRIVAL_LAMBDA : ℚ := 16/10

def SERVICE_MU : ℚ := 125/100

def SERVICE_SIGMA : ℚ := 25/100

def PATIENCE_SHAPE : ℚ := 45/10

def PATIENCE_SCALE : ℚ := 6

def CHOICE_LOW : ℚ := 1

def CHOICE_HIGH : ℚ := 3

def CHOICE_P : ℚ := 6/10

def TRAVEL_TIME : ℚ := 30

def TRAVEL_NOISE : ℚ := 10

def STOCK_INIT : ℚ := 250

def N_COUNTERS : Int := 3

def MED_THRESH : ℚ := 100

def RESTOCK_CHECK_INTERVAL : ℚ := 30

def SIM_TIME : ℚ := 24 * 60

def WARMUP_TIME : ℚ := 60

/-! Sampling setup.  Experiment.init_sampling (lines 146-161) spawns
n_rng_streams children from np.random.SeedSequence(seed) and hands each
distribution object one child.  Two samplers draw from the same underlying
random stream exactly when they are seeded with the same spawned child, since
np.random.default_rng of the same child SeedSequence yields generators with
identical state.  We record, for each distribution attribute, its family and
the index of the spawned child it receives. -/

inductive DistFamily
  | exponential
  | lognormal
  | weibull
  | uniform
  | bernoulli
deriving DecidableEq, Repr

structure Sampler where
  family : DistFamily
  streamIndex : Nat
deriving DecidableEq, Repr

structure Sampling where
  arrival_dist : Sampler
  service_dist : Sampler
  patience_dist : Sampler
  choice_rng : Sampler
  med_choice_rng : Sampler
  travel_dist : Sampler
deriving DecidableEq, Repr

/-- Translated from Experiment.init_sampling (lines 146-161): seeds is the list
of n_rng_streams spawned children; indexing seeds with 0..4 requires at least
five children (a shorter list raises IndexError, modelled as none).  Note that
choice_rng and med_choice_rng are both constructed from seeds with index 3,
while travel_dist uses index 4. -/
def init_sampling (n_rng_streams : Nat) : Option Sampling :=
  if 5 ≤ n_rng_streams then
    some
      { arrival_dist := { family := DistFamily.exponential, streamIndex := 0 }
        service_dist := { family := DistFamily.lognormal, streamIndex := 1 }
        patience_dist := { family := DistFamily.weibull, streamIndex := 2 }
        choice_rng := { family := DistFamily.uniform, streamIndex := 3 }
        med_choice_rng := { family := DistFamily.bernoulli, streamIndex := 3 }
        travel_dist := { family := DistFamily.uniform, streamIndex := 4 } }
  else none

/-- Stream indices of the six sampler attributes, in declaration order:
arrival, service, patience, quantity choice, medicine-type choice, travel. -/
def stream_indices (s : Sampling) : List Nat :=
  [s.arrival_dist.streamIndex, s.service_dist.streamIndex,
   s.patience_dist.streamIndex, s.choice_rng.streamIndex,
   s.med_choice_rng.streamIndex, s.travel_dist.streamIndex]

/-! Stock containers.  The program stores stock in simpy.Container instances;
these definitions embed the semantics of simpy.resources.container that the
source relies on: construction checks capacity > 0 and 0 <= init <= capacity;
get with a non-positive amount raises ValueError, is granted once
amount <= level, and otherwise stays queued (modelled as ok none); put with a
non-positive amount raises ValueError, is granted once capacity - level >=
amount, and otherwise stays queued. -/

structure Container where
  capacity : ℚ
  level : ℚ
deriving DecidableEq, Repr

def Container.init (capacity ini : ℚ) : Except String Container :=
  if capacity ≤ 0 then Except.error "ValueError: capacity must be > 0"
  else if ini < 0 then Except.error "ValueError: init must be >= 0"
  else if capacity < ini then Except.error "ValueError: init must be <= capacity"
  else Except.ok { capacity := capacity, level := ini }

def Container.get (c : Container) (amount : ℚ) : Except String (Option Container) :=
  if amount ≤ 0 then Except.error "ValueError: amount must be > 0"
  else if amount ≤ c.level then Except.ok (some { c with level := c.level - amount })
  else Except.ok none

def Container.put (c : Container) (amount : ℚ) : Except String (Option Container) :=
  if amount ≤ 0 then Except.error "ValueError: amount must be > 0"
  else if amount ≤ c.capacity - c.level then Except.ok (some { c with level := c.level + amount })
  else Except.ok none

def Container.invariant (c : Container) : Prop :=
  0 ≤ c.level ∧ c.level ≤ c.capacity

instance (c : Container) : Decidable c.invariant := by
  unfold Container.invariant
  infer_instance

/-! Experiment configuration and construction. -/

structure ExperimentConfig where
  seed : Int
  n_rng_streams : Nat
  n_counters : Int
  med_thresh : ℚ
  stock_init : ℚ
  arrival_lambda : ℚ
  service_mu : ℚ
  service_sigma : ℚ
  patience_shape : ℚ
  patience_scale : ℚ
  choice_low : ℚ
  choice_high : ℚ
  choice_p : ℚ
  travel_time : ℚ
  travel_noise : ℚ
  restock_check_interval : ℚ
deriving DecidableEq, Repr

/-- Translated from Experiment.__init__ (lines 92-133): the constructor stores
every parameter without validating any of them, then calls init_results_vars
(which cannot fail) and init_sampling.  The only ways construction can fail are
arithmetic errors raised while building the distribution objects, in source
order: the expression 1/arrival_lambda raises ZeroDivisionError when
arrival_lambda = 0; indexing the spawned seeds raises IndexError when fewer
than one (for seeds[0]) or later fewer than five children exist; the Lognormal
moment conversion log(m^2/phi) raises a math domain error (or ZeroDivisionError
when sigma is also 0) when service_mu = 0.  No check involves n_counters,
med_thresh, stock_init, or the sign of any rate. -/
def Experiment.construct (seed : Int) (n_rng_streams : Nat) (n_counters : Int)
    (med_thresh stock_init arrival_lambda service_mu service_sigma
     patience_shape patience_scale choice_low choice_high choice_p
     travel_time travel_noise restock_check_interval : ℚ) :
    Except String ExperimentConfig :=
  if arrival_lambda = 0 then Except.error "ZeroDivisionError: division by zero"
  else if n_rng_streams < 1 then Except.error "IndexError: list index out of range"
  else if service_mu = 0 then Except.error "ValueError: math domain error"
  else if n_rng_streams < 5 then Except.error "IndexError: list index out of range"
  else Except.ok
    { seed := seed
      n_rng_streams := n_rng_streams
      n_counters := n_counters
      med_thresh := med_thresh
      stock_init := stock_init
      arrival_lambda := arrival_lambda
      service_mu := service_mu
      service_sigma := service_sigma
      patience_shape := patience_shape
      patience_scale := patience_scale
      choice_low := choice_low
      choice_high := choice_high
      choice_p := choice_p
      travel_time := travel_time
      travel_noise := travel_noise
      restock_check_interval := restock_check_interval }

/-- Default parameter values of Experiment.__init__, with the given counter
count, stock level and threshold substituted. -/
def Experiment.constructWith (n_counters : Int) (stock_init med_thresh : ℚ) :
    Except String ExperimentConfig :=
  Experiment.construct SEED N_RNG_STREAMS n_counters med_thresh stock_init
    ARRIVAL_LAMBDA SERVICE_MU SERVICE_SIGMA PATIENCE_SHAPE PATIENCE_SCALE
    CHOICE_LOW CHOICE_HIGH CHOICE_P TRAVEL_TIME TRAVEL_NOISE
    RESTOCK_CHECK_INTERVAL

/-! Resource construction performed by run. -/

structure RunSetup where
  otc_stock : Except String Container
  prescription_stock : Except String Container
  counters_capacity : Int
deriving Repr

/-- Translated from run (lines 373-376): the two containers are built as
simpy.Container(env, stock_init, stock_init) where stock_init is run's own
keyword parameter (whose default is the module constant STOCK_INIT), not the
experiment's stock_init attribute; the counter pool capacity does come from the
experiment. -/
def run_setup (experiment : ExperimentConfig) (stock_init : ℚ) : RunSetup :=
  { otc_stock := Container.init stock_init stock_init
    prescription_stock := Container.init stock_init stock_init
    counters_capacity := experiment.n_counters }

/-- Translated from n_runs (lines 412-415): each call to run passes experiment,
rep, warmup_time and sim_time but never stock_init, so run's default
STOCK_INIT is always used for the containers. -/
def n_runs_setup (experiment : ExperimentConfig) : RunSetup :=
  run_setup experiment STOCK_INIT

/-! Results accumulator and simulation state. -/

structure Results where
  queue_waiting_times : List ℚ
  total_service_time : ℚ
  total_leavers : Nat
  total_customers : Nat
deriving DecidableEq, Repr

/-- Translated from Experiment.init_results_vars (lines 163-173). -/
def init_results_vars : Results :=
  { queue_waiting_times := []
    total_service_time := 0
    total_leavers := 0
    total_customers := 0 }

/-- Mutable simulation state shared by the processes of one replication: the
results accumulator, the two stock containers and the number of counter slots
in use. -/
structure SimState where
  results : Results
  otc_stock : Container
  prescription_stock : Container
  counters_in_use : Nat
deriving DecidableEq, Repr

/-- Translated from warmup (lines 323-340): after the warmup timeout the
process calls args.init_results_vars(), which rebinds the results dictionary to
a fresh one; nothing else in the simulation is touched. -/
def warmup_reset (st : SimState) : SimState :=
  { st with results := init_results_vars }

/-! Customer process. -/

structure MedInfo where
  med_type : Bool
  quantity : ℚ
deriving DecidableEq, Repr

inductive CustomerOutcome
  | reneged
  | blockedOnStock
  | fatalError
  | served
deriving DecidableEq, Repr

/-- Resolution of the race req | env.timeout(patience) on line 271: grantDelay
is the virtual-time delay after queue entry at which the counter pool grants
this request (none when no grant happens before the horizon).  The timeout path
is taken exactly when no grant arrives within the patience window; when the
grant is strictly earlier the request wins, and the claims below only ever rely
on the strict cases. -/
def race_timed_out (patience : ℚ) (grantDelay : Option ℚ) : Bool :=
  match grantDelay with
  | none => true
  | some g => decide (patience < g)

/-- Translated from customer (lines 248-292).  The returned Bool records
whether the customer ever held a counter slot.  On the timeout outcome (req not
in result) the function increments total_leavers and returns; leaving the with
block cancels the pending request, so the slot is never granted to this
customer afterwards.  On the grant outcome it appends the queue waiting time,
occupies a slot, withdraws from the stock container of the sampled medicine
type (suspending indefinitely when the container cannot satisfy the amount,
modelled as blockedOnStock with the slot still held), then accumulates the
service duration and releases the slot. -/
def customer (patience : ℚ) (grantDelay : Option ℚ) (med_info : MedInfo)
    (serviceDuration : ℚ) (st : SimState) : SimState × CustomerOutcome × Bool :=
  if race_timed_out patience grantDelay then
    ({ st with results :=
        { st.results with total_leavers := st.results.total_leavers + 1 } },
     CustomerOutcome.reneged, false)
  else
    let queue_waiting_time := grantDelay.getD 0
    let st1 : SimState :=
      { st with
        results :=
          { st.results with
            queue_waiting_times :=
              st.results.queue_waiting_times ++ [queue_waiting_time] }
        counters_in_use := st.counters_in_use + 1 }
    match (if med_info.med_type then st1.prescription_stock.get med_info.quantity
           else st1.otc_stock.get med_info.quantity) with
    | Except.error _ => (st1, CustomerOutcome.fatalError, true)
    | Except.ok none => (st1, CustomerOutcome.blockedOnStock, true)
    | Except.ok (some c) =>
      let st2 : SimState :=
        if med_info.med_type then { st1 with prescription_stock := c }
        else { st1 with otc_stock := c }
      let st3 : SimState :=
        { st2 with
          results :=
            { st2.results with
              total_service_time :=
                st2.results.total_service_time + serviceDuration } }
      ({ st3 with counters_in_use := st3.counters_in_use - 1 },
       CustomerOutcome.served, true)

/-! Arrival generator. -/

inductive GenOp
  | incrementArrivalCount
  | drawInterArrival
  | suspendForInterArrival
  | drawPatience
  | drawMedType
  | drawQuantity
  | spawnCustomer
deriving DecidableEq, Repr

/-- Statement order of one iteration of the for-loop of generate_customers,
translated from the source (lines 309-320): the arrival counter is incremented
on line 310, the inter-arrival delay is drawn on line 311, the process suspends
on line 312, patience, medicine type and quantity are drawn on lines 313-315,
and the customer process is spawned on line 320. -/
def generate_customers_iteration : List GenOp :=
  [GenOp.incrementArrivalCount, GenOp.drawInterArrival,
   GenOp.suspendForInterArrival, GenOp.drawPatience, GenOp.drawMedType,
   GenOp.drawQuantity, GenOp.spawnCustomer]

/-- Modelled from the claim's words, for comparison with the source order: the
delay is drawn and waited out first, and only then is the arrival count
incremented. -/
def claimed_generator_iteration : List GenOp :=
  [GenOp.drawInterArrival, GenOp.suspendForInterArrival,
   GenOp.incrementArrivalCount, GenOp.drawPatience, GenOp.drawMedType,
   GenOp.drawQuantity, GenOp.spawnCustomer]

/-- Counting state of the generator: the value of results.total_customers and
the number of customer processes spawned so far. -/
structure GenCounts where
  total_customers : Nat
  spawned : Nat
deriving DecidableEq, Repr

def GenOp.applyCount : GenOp → GenCounts → GenCounts
  | GenOp.incrementArrivalCount, g =>
      { g with total_customers := g.total_customers + 1 }
  | GenOp.spawnCustomer, g => { g with spawned := g.spawned + 1 }
  | _, g => g

def runGenOps (ops : List GenOp) (g : GenCounts) : GenCounts :=
  ops.foldl (fun a op => op.applyCount a) g

/-- Prefix of an iteration executed before the generator suspends. -/
def opsBeforeSuspension (ops : List GenOp) : List GenOp :=
  ops.takeWhile (fun op => !(op == GenOp.suspendForInterArrival))

/-! Restock monitor. -/

inductive RestockAction
  | delivery (med_type : Bool) (quantity : ℚ)
  | noDelivery
deriving DecidableEq, Repr

/-- Translated from the while-loop body of restock_check (lines 228-245):
when the OTC level is at or below the threshold a delivery of
stock_init - otc level is spawned and awaited; otherwise, when the
prescription level is at or below the threshold, the same is done for the
prescription container; in either case the process then suspends
unconditionally for the check interval.  The quantity uses args.stock_init,
the experiment's configured initial-and-maximum stock, which the spec calls
the container's capacity. -/
def restock_check_cycle (otcLevel presLevel med_thresh stock_init
    restock_check_interval : ℚ) : RestockAction × ℚ :=
  if otcLevel ≤ med_thresh then
    (RestockAction.delivery false (stock_init - otcLevel),
     restock_check_interval)
  else if presLevel ≤ med_thresh then
    (RestockAction.delivery true (stock_init - presLevel),
     restock_check_interval)
  else (RestockAction.noDelivery, restock_check_interval)

/-! Metric computation of run. -/

structure RunMetrics where
  mean_queue_waiting_time : ℚ
  counter_util : ℚ
  reneging_rate : ℚ
deriving DecidableEq, Repr

/-- Translated from run (lines 382-384).  The mean queue waiting time is
guarded by the emptiness check on line 382 and falls back to 0; the divisions
on lines 383 and 384 are unguarded, and in Python a zero denominator raises
ZeroDivisionError, so run propagates an error instead of returning the metrics
record. -/
def run_metrics (results : Results) (sim_time : ℚ) (n_counters : Nat) :
    Except String RunMetrics :=
  let mean_queue_waiting_time :=
    if results.queue_waiting_times.isEmpty then 0
    else results.queue_waiting_times.sum / results.queue_waiting_times.length
  if sim_time * n_counters = 0 then
    Except.error "ZeroDivisionError: float division by zero"
  else if results.total_customers = 0 then
    Except.error "ZeroDivisionError: division by zero"
  else Except.ok
    { mean_queue_waiting_time := mean_queue_waiting_time
      counter_util :=
        results.total_service_time / (sim_time * n_counters) * 100
      reneging_rate :=
        (results.total_leavers : ℚ) / (results.total_customers : ℚ) * 100 }

/-! Small utility functions on Except values. -/

def exceptIsOk {ε α : Type} : Except ε α → Bool
  | Except.ok _ => true
  | Except.error _ => false

def exceptToOption {ε α : Type} : Except ε α → Option α
  | Except.ok a => some a
  | Except.error _ => none

/-- Concrete sampling record produced by init_sampling for the default five
streams. -/
def default_sampling : Sampling :=
  { arrival_dist := { family := DistFamily.exponential, streamIndex := 0 }
    service_dist := { family := DistFamily.lognormal, streamIndex := 1 }
    patience_dist := { family := DistFamily.weibull, streamIndex := 2 }
    choice_rng := { family := DistFamily.uniform, streamIndex := 3 }
    med_choice_rng := { family := DistFamily.bernoulli, streamIndex := 3 }
    travel_dist := { family := DistFamily.uniform, streamIndex := 4 } }

/-- C1 counterexample: with the default stream count the program derives only
five spawned seeds, and the quantity-choice sampler and the medicine-type
sampler are both seeded with spawned child 3, so two of the six samplers draw
from the same underlying random stream. -/
theorem rng_streams_counterexample :
    N_RNG_STREAMS = 5 ∧
    init_sampling N_RNG_STREAMS = some default_sampling ∧
    default_sampling.choice_rng.streamIndex =
      default_sampling.med_choice_rng.streamIndex ∧
    default_sampling.choice_rng.streamIndex = 3 := by
  refine ⟨rfl, ?_, rfl, rfl⟩
  decide

/-- C1 amended: init_sampling derives five spawned streams; the arrival,
service, patience, quantity-choice and travel samplers use pairwise distinct
children 0, 1, 2, 3 and 4, while the medicine-type sampler shares child 3 with
the quantity-choice sampler, so exactly that one pair draws from the same
underlying stream. -/
theorem rng_streams_amended (n : Nat) (s : Sampling)
    (h : init_sampling n = some s) :
    s.choice_rng.streamIndex = s.med_choice_rng.streamIndex ∧
    stream_indices s = [0, 1, 2, 3, 3, 4] ∧
    List.Nodup [s.arrival_dist.streamIndex, s.service_dist.streamIndex,
      s.patience_dist.streamIndex, s.choice_rng.streamIndex,
      s.travel_dist.streamIndex] ∧
    s.arrival_dist.family = DistFamily.exponential ∧
    s.service_dist.family = DistFamily.lognormal ∧
    s.patience_dist.family = DistFamily.weibull ∧
    s.choice_rng.family = DistFamily.uniform ∧
    s.med_choice_rng.family = DistFamily.bernoulli ∧
    s.travel_dist.family = DistFamily.uniform := by
  unfold init_sampling at h
  by_cases h5 : 5 ≤ n
  · rw [if_pos h5, Option.some.injEq] at h
    subst h
    decide
  · rw [if_neg h5] at h
    exact absurd h (by simp)

/-- C1 amended witness at the default stream count. -/
theorem rng_streams_amended_witness :
    init_sampling 5 = some default_sampling ∧
    default_sampling.choice_rng.streamIndex =
      default_sampling.med_choice_rng.streamIndex :=
  ⟨by decide, (rng_streams_amended 5 default_sampling (by decide)).1⟩

/-- Experiment instance configured with stock_init = 100 and otherwise default
parameters. -/
def experiment_stock100 : ExperimentConfig :=
  { seed := 42
    n_rng_streams := 5
    n_counters := 3
    med_thresh := 100
    stock_init := 100
    arrival_lambda := 16/10
    service_mu := 125/100
    service_sigma := 25/100
    patience_shape := 45/10
    patience_scale := 6
    choice_low := 1
    choice_high := 3
    choice_p := 6/10
    travel_time := 30
    travel_noise := 10
    restock_check_interval := 30 }

/-- C2 counterexample: for an experiment configured with stock_init = 100,
invoking run through n_runs builds both containers with initial level and
capacity 250 (run's own stock_init default, the module constant STOCK_INIT),
not the experiment's configured 100. -/
theorem run_containers_counterexample :
    Experiment.constructWith 3 100 100 = Except.ok experiment_stock100 ∧
    experiment_stock100.stock_init = 100 ∧
    (n_runs_setup experiment_stock100).otc_stock =
      Except.ok { capacity := 250, level := 250 } ∧
    (n_runs_setup experiment_stock100).prescription_stock =
      Except.ok { capacity := 250, level := 250 } ∧
    (250 : ℚ) ≠ 100 := by
  refine ⟨?_, rfl, rfl, rfl, by norm_num⟩
  unfold Experiment.constructWith Experiment.construct
  rw [if_neg (by norm_num [ARRIVAL_LAMBDA]), if_neg (by norm_num [N_RNG_STREAMS]),
    if_neg (by norm_num [SERVICE_MU]), if_neg (by norm_num [N_RNG_STREAMS])]
  rfl

/-- C2 amended: run builds both containers with initial level and capacity
equal to run's own stock_init parameter (not the experiment's configured
stock_init attribute), and n_runs always invokes run with that parameter left
at its default, the module constant STOCK_INIT = 250. -/
theorem run_containers_sized_to_run_parameter (experiment : ExperimentConfig)
    (stock_init : ℚ) :
    (run_setup experiment stock_init).otc_stock =
      Container.init stock_init stock_init ∧
    (run_setup experiment stock_init).prescription_stock =
      Container.init stock_init stock_init ∧
    (0 < stock_init →
      Container.init stock_init stock_init =
        Except.ok { capacity := stock_init, level := stock_init }) ∧
    n_runs_setup experiment = run_setup experiment STOCK_INIT ∧
    STOCK_INIT = 250 := by
  refine ⟨rfl, rfl, ?_, rfl, rfl⟩
  intro hpos
  unfold Container.init
  rw [if_neg (by linarith), if_neg (by linarith), if_neg (by linarith)]

/-- C2 amended witness at stock_init = 250. -/
theorem run_containers_sized_witness :
    (run_setup experiment_stock100 250).otc_stock =
      Container.init 250 250 ∧
    Container.init 250 250 =
      Except.ok { capacity := 250, level := 250 } := by
  have h := run_containers_sized_to_run_parameter experiment_stock100 250
  exact ⟨h.1, h.2.2.1 (by norm_num)⟩

/-- C5 counterexample: constructing an Experiment with zero counters, with a
restock threshold of 400 above the stock capacity 250, or with a negative
arrival rate all succeed; no configuration-validation error is raised at
construction time. -/
theorem experiment_validation_counterexample :
    exceptIsOk (Experiment.constructWith 0 250 100) = true ∧
    exceptIsOk (Experiment.constructWith 3 250 400) = true ∧
    exceptIsOk (Experiment.construct SEED N_RNG_STREAMS 3 100 250 (-1)
      SERVICE_MU SERVICE_SIGMA PATIENCE_SHAPE PATIENCE_SCALE CHOICE_LOW
      CHOICE_HIGH CHOICE_P TRAVEL_TIME TRAVEL_NOISE
      RESTOCK_CHECK_INTERVAL) = true := by
  refine ⟨?_, ?_, ?_⟩
  · unfold Experiment.constructWith Experiment.construct
    rw [if_neg (by norm_num [ARRIVAL_LAMBDA]), if_neg (by norm_num [N_RNG_STREAMS]),
      if_neg (by norm_num [SERVICE_MU]), if_neg (by norm_num [N_RNG_STREAMS])]
    rfl
  · unfold Experiment.constructWith Experiment.construct
    rw [if_neg (by norm_num [ARRIVAL_LAMBDA]), if_neg (by norm_num [N_RNG_STREAMS]),
      if_neg (by norm_num [SERVICE_MU]), if_neg (by norm_num [N_RNG_STREAMS])]
    rfl
  · unfold Experiment.construct
    rw [if_neg (by norm_num), if_neg (by norm_num [N_RNG_STREAMS]),
      if_neg (by norm_num [SERVICE_MU]), if_neg (by norm_num [N_RNG_STREAMS])]
    rfl

/-- C5 amended: Experiment construction validates nothing; with the default
five streams it succeeds and stores the parameters verbatim for every
configuration whose arrival rate and lognormal service mean are nonzero — in
particular for zero counters, negative rates and thresholds above the stock
capacity.  The only constructor-time failures are the arithmetic errors raised
while the distribution objects are built (division by zero for a zero arrival
rate, a log-domain error for a zero service mean), which are not
configuration-validation failures. -/
theorem experiment_construction_unvalidated (seed : Int) (n_counters : Int)
    (med_thresh stock_init arrival_lambda service_mu service_sigma
     patience_shape patience_scale choice_low choice_high choice_p
     travel_time travel_noise restock_check_interval : ℚ)
    (ha : arrival_lambda ≠ 0) (hs : service_mu ≠ 0) :
    Experiment.construct seed 5 n_counters med_thresh stock_init
        arrival_lambda service_mu service_sigma patience_shape patience_scale
        choice_low choice_high choice_p travel_time travel_noise
        restock_check_interval =
      Except.ok
        { seed := seed
          n_rng_streams := 5
          n_counters := n_counters
          med_thresh := med_thresh
          stock_init := stock_init
          arrival_lambda := arrival_lambda
          service_mu := service_mu
          service_sigma := service_sigma
          patience_shape := patience_shape
          patience_scale := patience_scale
          choice_low := choice_low
          choice_high := choice_high
          choice_p := choice_p
          travel_time := travel_time
          travel_noise := travel_noise
          restock_check_interval := restock_check_interval } := by
  unfold Experiment.construct
  rw [if_neg ha, if_neg (by norm_num), if_neg hs, if_neg (by norm_num)]

/-- C5 amended witness: an experiment with zero counters, a negative arrival
rate and a threshold above capacity is constructed without any error. -/
theorem experiment_construction_unvalidated_witness :
    Experiment.construct 42 5 0 400 250 (-1) (125/100) (25/100) (45/10) 6 1 3
        (6/10) 30 10 30 =
      Except.ok
        { seed := 42
          n_rng_streams := 5
          n_counters := 0
          med_thresh := 400
          stock_init := 250
          arrival_lambda := -1
          service_mu := 125/100
          service_sigma := 25/100
          patience_shape := 45/10
          patience_scale := 6
          choice_low := 1
          choice_high := 3
          choice_p := 6/10
          travel_time := 30
          travel_noise := 10
          restock_check_interval := 30 } :=
  experiment_construction_unvalidated 42 0 400 250 (-1) (125/100) (25/100)
    (45/10) 6 1 3 (6/10) 30 10 30 (by norm_num) (by norm_num)

/-- Concrete mid-run simulation state used by the closed witness theorems. -/
def example_state : SimState :=
  { results :=
      { queue_waiting_times := [2]
        total_service_time := 4
        total_leavers := 1
        total_customers := 7 }
    otc_stock := { capacity := 250, level := 200 }
    prescription_stock := { capacity := 250, level := 150 }
    counters_in_use := 2 }

/-- C3: when the patience timeout wins the race against the counter grant, the
customer increments total_leavers exactly once, never holds a counter slot
(the pending request is cancelled on leaving the with block, so it cannot be
granted later), records no queue waiting time, adds nothing to the cumulative
service time, and withdraws nothing from either stock container. -/
theorem customer_timeout_reneges (patience : ℚ) (grantDelay : Option ℚ)
    (med_info : MedInfo) (serviceDuration : ℚ) (st : SimState)
    (h : race_timed_out patience grantDelay = true) :
    customer patience grantDelay med_info serviceDuration st =
      ({ st with results :=
          { st.results with total_leavers := st.results.total_leavers + 1 } },
       CustomerOutcome.reneged, false) ∧
    (customer patience grantDelay med_info serviceDuration st).1.results.total_leavers
      = st.results.total_leavers + 1 ∧
    (customer patience grantDelay med_info serviceDuration st).1.results.queue_waiting_times
      = st.results.queue_waiting_times ∧
    (customer patience grantDelay med_info serviceDuration st).1.results.total_service_time
      = st.results.total_service_time ∧
    (customer patience grantDelay med_info serviceDuration st).1.otc_stock
      = st.otc_stock ∧
    (customer patience grantDelay med_info serviceDuration st).1.prescription_stock
      = st.prescription_stock ∧
    (customer patience grantDelay med_info serviceDuration st).1.counters_in_use
      = st.counters_in_use ∧
    (customer patience grantDelay med_info serviceDuration st).2.1
      = CustomerOutcome.reneged ∧
    (customer patience grantDelay med_info serviceDuration st).2.2 = false := by
  simp [customer, h]

/-- C3 witness: the spec's own example, a customer with patience 5 whose
counter would only be granted after a delay of 10, reneges and increments the
leaver count from 1 to 2 without ever holding a slot. -/
theorem customer_timeout_reneges_witness :
    race_timed_out 5 (some 10) = true ∧
    (customer 5 (some 10) { med_type := false, quantity := 1 } 3
      example_state).2.1 = CustomerOutcome.reneged ∧
    (customer 5 (some 10) { med_type := false, quantity := 1 } 3
      example_state).1.results.total_leavers = 2 ∧
    (customer 5 (some 10) { med_type := false, quantity := 1 } 3
      example_state).2.2 = false := by
  have h := customer_timeout_reneges 5 (some 10)
    { med_type := false, quantity := 1 } 3 example_state (by decide)
  exact ⟨by decide, h.2.2.2.2.2.2.2.1, h.2.1, h.2.2.2.2.2.2.2.2⟩

/-- C4: stock levels stay within bounds.  Construction yields a container
satisfying the invariant 0 ≤ level ≤ capacity, every granted withdrawal and
every granted deposit preserves it, and the restock pattern in particular —
a deposit of capacity − levelReq, where levelReq is the level observed when
the restock was requested and the level can only have decreased (to levelArr)
while the delivery travelled, since the monitor awaits each delivery — is
granted immediately and never lifts the level above capacity. -/
theorem stock_level_bounds :
    (∀ capacity ini c, Container.init capacity ini = Except.ok c →
      c.invariant) ∧
    (∀ (c : Container) (a : ℚ) (c' : Container), c.invariant →
      c.get a = Except.ok (some c') → c'.invariant) ∧
    (∀ (c : Container) (a : ℚ) (c' : Container), c.invariant →
      c.put a = Except.ok (some c') → c'.invariant) ∧
    (∀ capacity levelReq levelArr : ℚ, 0 ≤ levelArr → levelArr ≤ levelReq →
      levelReq < capacity →
      Container.put { capacity := capacity, level := levelArr }
          (capacity - levelReq) =
        Except.ok (some { capacity := capacity,
                          level := levelArr + (capacity - levelReq) }) ∧
      levelArr + (capacity - levelReq) ≤ capacity) := by
  refine ⟨?_, ?_, ?_, ?_⟩
  · intro capacity ini c h
    unfold Container.init at h
    split_ifs at h with h1 h2 h3
    injection h with h
    subst h
    exact ⟨by linarith [not_lt.mp h2], by linarith [not_lt.mp h3]⟩
  · intro c a c' hinv h
    unfold Container.get at h
    split_ifs at h with h1 h2
    · injection h with h
      injection h with h
      subst h
      refine ⟨?_, ?_⟩
      · show (0 : ℚ) ≤ c.level - a
        linarith [not_le.mp h1, h2]
      · show c.level - a ≤ c.capacity
        linarith [hinv.2, not_le.mp h1]
    · injection h with h
      exact absurd h (by simp)
  · intro c a c' hinv h
    unfold Container.put at h
    split_ifs at h with h1 h2
    · injection h with h
      injection h with h
      subst h
      refine ⟨?_, ?_⟩
      · show (0 : ℚ) ≤ c.level + a
        linarith [hinv.1, not_le.mp h1]
      · show c.level + a ≤ c.capacity
        linarith [h2]
    · injection h with h
      exact absurd h (by simp)
  · intro capacity levelReq levelArr h0 harr hreq
    constructor
    · unfold Container.put
      rw [if_neg (by simp; linarith), if_pos (by simp; linarith)]
    · linarith

/-- C4 witness: a withdrawal of 2 from a full container of capacity 250 keeps
the invariant, and the restock deposit pattern with a requested-time level of
100 and an arrival-time level of 50 is granted and lands at 200 ≤ 250. -/
theorem stock_level_bounds_witness :
    Container.invariant { capacity := 250, level := 248 } ∧
    Container.put { capacity := (250 : ℚ), level := 50 } (250 - 100) =
      Except.ok (some { capacity := 250, level := 50 + (250 - 100) }) ∧
    (50 : ℚ) + (250 - 100) ≤ 250 := by
  have hb := stock_level_bounds
  refine ⟨?_, (hb.2.2.2 250 100 50 (by norm_num) (by norm_num) (by norm_num)).1,
    (hb.2.2.2 250 100 50 (by norm_num) (by norm_num) (by norm_num)).2⟩
  exact hb.2.1 { capacity := 250, level := 250 } 2 { capacity := 250, level := 248 }
    (by constructor <;> norm_num [Container.invariant]) (by norm_num [Container.get])

/-- C6 counterexample: a withdrawal of 300 from a container with capacity 250
at its full level is not an error — the get request simply stays queued (ok
none), so the code blocks rather than surfacing a fatal failure. -/
theorem withdrawal_over_capacity_counterexample :
    (250 : ℚ) < 300 ∧
    Container.get { capacity := (250 : ℚ), level := 250 } 300 =
      Except.ok none := by
  exact ⟨by norm_num, by norm_num [Container.get]⟩

/-- C6 amended: a withdrawal request for a quantity above the container's
capacity raises no error; at every level satisfying the container invariant
(hence at every simulated instant) the request stays queued, so it blocks
indefinitely instead of failing fast. -/
theorem withdrawal_over_capacity_blocks (c : Container) (amount : ℚ)
    (hinv : c.invariant) (hover : c.capacity < amount) :
    c.get amount = Except.ok none := by
  unfold Container.get
  rw [if_neg (by simp; linarith [hinv.1, hinv.2]),
    if_neg (by simp; linarith [hinv.2])]

/-- C6 amended witness at a full container of capacity 250 and amount 300. -/
theorem withdrawal_over_capacity_blocks_witness :
    Container.get { capacity := (250 : ℚ), level := 250 } 300 =
      Except.ok none :=
  withdrawal_over_capacity_blocks { capacity := 250, level := 250 } 300
    (by constructor <;> norm_num [Container.invariant]) (by norm_num)

/-- C7 counterexample: the iteration order of generate_customers is not the
claimed draw-suspend-increment order; the arrival counter is incremented
first, so at the instant the generator suspends the count already includes a
customer that has not yet arrived (count 1, no customer spawned). -/
theorem generator_order_counterexample :
    generate_customers_iteration ≠ claimed_generator_iteration ∧
    generate_customers_iteration.head? = some GenOp.incrementArrivalCount ∧
    runGenOps (opsBeforeSuspension generate_customers_iteration)
        { total_customers := 0, spawned := 0 } =
      { total_customers := 1, spawned := 0 } := by
  refine ⟨by decide, by decide, by decide⟩

/-- C7 amended: each iteration of generate_customers increments the arrival
count first, then draws the inter-arrival delay, suspends, draws patience,
medicine type and quantity, and finally spawns the customer process; hence
between the increment and the spawn the count exceeds the number of spawned
customers by one, while a full iteration advances both by exactly one. -/
theorem generator_increments_count_first (g : GenCounts) :
    generate_customers_iteration =
      [GenOp.incrementArrivalCount, GenOp.drawInterArrival,
       GenOp.suspendForInterArrival, GenOp.drawPatience, GenOp.drawMedType,
       GenOp.drawQuantity, GenOp.spawnCustomer] ∧
    runGenOps (opsBeforeSuspension generate_customers_iteration) g =
      { g with total_customers := g.total_customers + 1 } ∧
    runGenOps generate_customers_iteration g =
      { total_customers := g.total_customers + 1, spawned := g.spawned + 1 } := by
  refine ⟨rfl, rfl, rfl⟩

/-- C8: in every cycle of the restock monitor at most one delivery is spawned;
the OTC container is checked first and takes priority when both levels are at
or below the threshold; the spawned delivery carries quantity
stock_init − level (the configured initial-and-maximum stock minus the level
observed at request time); and the cycle always ends by suspending for the
check interval, whether or not a delivery happened. -/
theorem restock_cycle_one_category_otc_priority
    (otcLevel presLevel med_thresh stock_init interval : ℚ) :
    (restock_check_cycle otcLevel presLevel med_thresh stock_init interval).2
      = interval ∧
    (otcLevel ≤ med_thresh →
      (restock_check_cycle otcLevel presLevel med_thresh stock_init interval).1
        = RestockAction.delivery false (stock_init - otcLevel)) ∧
    (¬ otcLevel ≤ med_thresh → presLevel ≤ med_thresh →
      (restock_check_cycle otcLevel presLevel med_thresh stock_init interval).1
        = RestockAction.delivery true (stock_init - presLevel)) ∧
    (¬ otcLevel ≤ med_thresh → ¬ presLevel ≤ med_thresh →
      (restock_check_cycle otcLevel presLevel med_thresh stock_init interval).1
        = RestockAction.noDelivery) ∧
    (otcLevel ≤ med_thresh → presLevel ≤ med_thresh →
      (restock_check_cycle otcLevel presLevel med_thresh stock_init interval).1
        = RestockAction.delivery false (stock_init - otcLevel)) := by
  unfold restock_check_cycle
  refine ⟨?_, ?_, ?_, ?_, ?_⟩
  · split_ifs <;> rfl
  · intro h1
    rw [if_pos h1]
  · intro h1 h2
    rw [if_neg h1, if_pos h2]
  · intro h1 h2
    rw [if_neg h1, if_neg h2]
  · intro h1 _
    rw [if_pos h1]

/-- C8 witness: with both levels (80 and 90) at or below the threshold 100,
only the OTC delivery of 250 − 80 is spawned and the cycle still suspends for
the 30-minute interval. -/
theorem restock_cycle_witness :
    (restock_check_cycle 80 90 100 250 30).1 =
      RestockAction.delivery false (250 - 80) ∧
    (restock_check_cycle 80 90 100 250 30).2 = 30 := by
  have h := restock_cycle_one_category_otc_priority 80 90 100 250 30
  exact ⟨h.2.2.2.2 (by norm_num) (by norm_num), h.1⟩

/-- C9: the warmup reset replaces the results accumulator with the fresh one
(empty waiting-time list, zero cumulative service time, zero leavers, zero
arrivals) while leaving both stock containers and the counter occupancy
untouched, and no waiting time recorded before the boundary remains in the
post-warmup accumulator. -/
theorem warmup_resets_only_results (st : SimState) :
    (warmup_reset st).otc_stock = st.otc_stock ∧
    (warmup_reset st).prescription_stock = st.prescription_stock ∧
    (warmup_reset st).counters_in_use = st.counters_in_use ∧
    (warmup_reset st).results = init_results_vars ∧
    (warmup_reset st).results.queue_waiting_times = [] ∧
    (∀ w : ℚ, w ∈ st.results.queue_waiting_times →
      w ∉ (warmup_reset st).results.queue_waiting_times) := by
  refine ⟨rfl, rfl, rfl, rfl, rfl, ?_⟩
  intro w _
  simp [warmup_reset, init_results_vars]

/-- C9 witness: resetting a mid-run state with one recorded waiting time (2)
keeps the stocks and counter occupancy and drops that waiting time. -/
theorem warmup_resets_only_results_witness :
    (warmup_reset example_state).otc_stock = example_state.otc_stock ∧
    (warmup_reset example_state).counters_in_use
      = example_state.counters_in_use ∧
    (2 : ℚ) ∉ (warmup_reset example_state).results.queue_waiting_times := by
  have h := warmup_resets_only_results example_state
  exact ⟨h.1, h.2.2.1, h.2.2.2.2.2 2 (by decide)⟩

/-- Results record with an empty post-warmup waiting-time list but a nonzero
arrival count, used by the C10 witness. -/
def example_results_no_waits : Results :=
  { queue_waiting_times := []
    total_service_time := 10
    total_leavers := 2
    total_customers := 5 }

/-- C10: the warmup reset zeroes the arrival count, the mean queue waiting
time is guarded (an empty waiting-time list yields mean 0 inside a returned
metrics record), but the reneging rate divides by the arrival count
unguarded — so whenever the arrival generator never runs again between the
reset and the end of the run the count stays 0 and run raises
ZeroDivisionError instead of returning a metrics record. -/
theorem run_metrics_zero_arrivals_raises (st : SimState) (r : Results)
    (sim_time : ℚ) (n_counters : Nat) :
    (warmup_reset st).results.total_customers = 0 ∧
    (sim_time * n_counters ≠ 0 →
      run_metrics (warmup_reset st).results sim_time n_counters =
        Except.error "ZeroDivisionError: division by zero") ∧
    (sim_time * n_counters ≠ 0 → r.total_customers ≠ 0 →
      r.queue_waiting_times = [] →
      (exceptToOption (run_metrics r sim_time n_counters)).map
          RunMetrics.mean_queue_waiting_time = some 0) := by
  refine ⟨rfl, ?_, ?_⟩
  · intro hden
    simp [run_metrics, warmup_reset, init_results_vars, hden]
  · intro hden hc hempty
    simp [run_metrics, hden, hc, hempty, exceptToOption]

/-- C10 witness: after the warmup reset of a mid-run state, computing the run
metrics with the default horizon 1440 and three counters raises the division
error, while a results record with five arrivals and no recorded waits yields
a metrics record whose mean waiting time is the guarded 0. -/
theorem run_metrics_zero_arrivals_raises_witness :
    run_metrics (warmup_reset example_state).results 1440 3 =
      Except.error "ZeroDivisionError: division by zero" ∧
    (exceptToOption (run_metrics example_results_no_waits 1440 3)).map
        RunMetrics.mean_queue_waiting_time = some 0 := by
  have h := run_metrics_zero_arrivals_raises example_state
    example_results_no_waits 1440 3
  exact ⟨h.2.1 (by norm_num), h.2.2 (by norm_num) (by decide) (by decide)⟩

end PharmacySim
